import Mathlib

/-!
Shallow embedding of the per-guild playback state machine of `music_bot.py`:
the per-guild dictionaries `music_queues`, `current_song_info`, `guild_volumes`
and the guild's Discord voice client, together with the operations
`ensure_voice`, `play` (split at its resolver await point), `on_song_end`,
`play_next_in_queue`, `play_audio_source`, `skip`, `stop`, `leave`, `volume`
and `queue_cmd`. A dictionary entry that may be absent is an `Option`;
Python float volumes are modelled as exact rationals.
-/

namespace MusicBot

/-- A resolved track, the `song_details` dictionary built by the `play` command. -/
structure Song where
  webpage_url : String
  title : String
  duration : Option Nat
  uploader : String
  thumbnail : Option String
  requester : String
  source_url : String
deriving DecidableEq, Repr

/-- One yt-dlp entry dictionary: each field is `none` when the key is absent.
`url` distinguishes a missing key (`none`) from an empty value (`some ""`),
mirroring the separate `'url' in raw_info` and `if not stream_url` checks. -/
structure Entry where
  webpage_url : Option String
  title : Option String
  duration : Option Nat
  uploader : Option String
  thumbnail : Option String
  url : Option String
deriving DecidableEq, Repr

/-- The dictionary returned by `extract_yt_info_sync`: either an error marker
(`_type == "error"`), or a dictionary possibly carrying an `entries` list and
the fields of a single entry. -/
structure RawInfo where
  isErrorType : Bool
  errorMsg : Option String
  entries : Option (List Entry)
  self : Entry
deriving DecidableEq, Repr

/-- The guild's voice client: channel identity, connection flag, the
`is_playing`/`is_paused` observables, and the live `PCMVolumeTransformer`
gain when a source has been attached (`vc.source`). -/
structure VoiceClient where
  channel : Nat
  connected : Bool
  playing : Bool
  paused : Bool
  sourceVolume : Option Rat
deriving DecidableEq, Repr

/-- All mutable per-guild state of the bot: the guild's (possibly absent)
entries in `music_queues`, `current_song_info` and `guild_volumes`, and
its (possibly absent) voice client `ctx.voice_client`. -/
structure GuildState where
  musicQueue : Option (List Song)
  currentSong : Option Song
  guildVolume : Option Rat
  voice : Option VoiceClient
deriving DecidableEq, Repr

/-- `vc.is_playing() or vc.is_paused()` where a missing client reports false. -/
def voiceActive (s : GuildState) : Bool :=
  match s.voice with
  | some vc => vc.playing || vc.paused
  | none => false

/-- Truthiness of `music_queues.get(guild_id)`: an entry exists and is non-empty. -/
def queueTruthy (s : GuildState) : Bool :=
  match s.musicQueue with
  | some (_ :: _) => true
  | _ => false

/-- The guild's queue contents, identifying a missing `music_queues` entry with
an empty one (the logical queue view). -/
def logicalQueue (s : GuildState) : List Song :=
  s.musicQueue.getD []

/-- `guild_volumes.get(guild_id, 0.5)`. -/
def volumeLookup (s : GuildState) : Rat :=
  s.guildVolume.getD (1 / 2)

/-- Result of `ensure_voice`. -/
inductive VoiceResult where
  | noUser
  | ok (vc : VoiceClient)
  | busy
deriving DecidableEq, Repr

/-- `ensure_voice`: connect when absent, return when already in the user's
channel, move when idle, refuse when busy in another channel. Returns the
result together with the updated voice client slot. -/
def ensure_voice (userChannel : Option Nat) (cur : Option VoiceClient) :
    VoiceResult × Option VoiceClient :=
  match userChannel with
  | none => (.noUser, cur)
  | some uc =>
    match cur with
    | none =>
      let vc : VoiceClient := { channel := uc, connected := true, playing := false,
                                paused := false, sourceVolume := none }
      (.ok vc, some vc)
    | some vc =>
      if vc.channel = uc then (.ok vc, some vc)
      else if !vc.playing && !vc.paused then
        let vc2 : VoiceClient := { vc with channel := uc }
        (.ok vc2, some vc2)
      else (.busy, some vc)

/-- `play_audio_source`: when a connected client exists, attach a
volume-transformed source at `guild_volumes.get(guild_id, 0.5)` and start it. -/
def play_audio_source (s : GuildState) : GuildState :=
  match s.voice with
  | some vc =>
    if vc.connected then
      { s with voice := some { vc with playing := true, paused := false, sourceVolume := some (volumeLookup s) } }
    else s
  | none => s

/-- `play_next_in_queue`: pop the queue head into `current_song_info` and start
it; do nothing when the queue entry is missing or empty. -/
def play_next_in_queue (s : GuildState) : GuildState :=
  match s.musicQueue with
  | some (song :: rest) =>
    play_audio_source { s with musicQueue := some rest, currentSong := some song }
  | _ => s

/-- `on_song_end`: clear `current_song_info`, then advance when the queue is
non-empty. The error argument is logged and otherwise ignored. -/
def on_song_end (s : GuildState) (_err : Bool) : GuildState :=
  let s1 : GuildState := { s with currentSong := none }
  if queueTruthy s1 then play_next_in_queue s1 else s1

/-- Entry selection in `play`: a non-empty `entries` list wins, else the
dictionary itself when it has a `url` key, else no playable track. -/
def selectEntry (r : RawInfo) : Option Entry :=
  match r.entries with
  | some (e :: _) => some e
  | _ => if r.self.url.isSome then some r.self else none

/-- `entry.get('url')` followed by the `if not stream_url` falsiness check. -/
def streamOf (e : Entry) : Option String :=
  match e.url with
  | some u => if u = "" then none else some u
  | none => none

/-- Building `song_details` from an entry, its stream URL and the requester. -/
def mkSong (e : Entry) (requester : String) (stream : String) : Song :=
  { webpage_url := e.webpage_url.getD "N/A"
    title := e.title.getD "Unknown Title"
    duration := e.duration
    uploader := e.uploader.getD "Unknown Uploader"
    thumbnail := e.thumbnail
    requester := requester
    source_url := stream }

/-- User-visible outcome of the `play` command. -/
inductive PlayOutcome where
  | userNotInVoice
  | sessionBusy
  | resolveFailed
  | noPlayableTrack
  | noStreamUrl
  | appendFailed
  | added (startedPlayback : Bool)
deriving DecidableEq, Repr

/-- The continuation of `play` after the resolver await returns, run against
whatever guild state holds at that moment. A missing `music_queues` entry makes
`music_queues[guild_id].append(...)` raise `KeyError`, which the surrounding
`except` turns into an early return with no state change (`appendFailed`).
After a successful append, playback starts unless the client is already
playing or paused. -/
def play_after_resolve (requester : String) (raw : Option RawInfo) (s : GuildState) :
    PlayOutcome × GuildState :=
  match raw with
  | none => (.resolveFailed, s)
  | some r =>
    if r.isErrorType then (.resolveFailed, s)
    else
      match selectEntry r with
      | none => (.noPlayableTrack, s)
      | some e =>
        match streamOf e with
        | none => (.noStreamUrl, s)
        | some u =>
          let song := mkSong e requester u
          match s.musicQueue with
          | none => (.appendFailed, s)
          | some q =>
            let s2 : GuildState := { s with musicQueue := some (q ++ [song]) }
            if voiceActive s2 then (.added false, s2)
            else (.added true, play_next_in_queue s2)

/-- The whole `play` command run without interleaving: `ensure_voice`, creation
of the guild's `music_queues` entry when missing, then the post-resolution
continuation on the resulting state. -/
def play (userChannel : Option Nat) (requester : String) (raw : Option RawInfo)
    (s : GuildState) : PlayOutcome × GuildState :=
  match ensure_voice userChannel s.voice with
  | (.noUser, v2) => (.userNotInVoice, { s with voice := v2 })
  | (.busy, v2) => (.sessionBusy, { s with voice := v2 })
  | (.ok _, v2) =>
    let s1 : GuildState := { s with voice := v2 }
    let s2 : GuildState :=
      if s1.musicQueue.isNone then { s1 with musicQueue := some [] } else s1
    play_after_resolve requester raw s2

/-- Result of the `skip` command. -/
inductive SkipResult where
  | skipped
  | nothingToSkip
deriving DecidableEq, Repr

/-- `skip`: stop the current stream when playing or paused, else report that
nothing is playing. (The resulting `on_song_end` callback is a separate,
later event.) -/
def skip (s : GuildState) : SkipResult × GuildState :=
  match s.voice with
  | some vc =>
    if vc.playing || vc.paused then
      (.skipped, { s with voice := some { vc with playing := false, paused := false } })
    else (.nothingToSkip, s)
  | none => (.nothingToSkip, s)

/-- Result of the `stop` and `leave` commands. -/
inductive StopResult where
  | stopped
  | notConnected
deriving DecidableEq, Repr

/-- `stop`: when a voice client exists, pop the guild's queue and now-playing
entries, stop the stream and disconnect; otherwise reply that the bot is not
connected and change nothing. -/
def stop (s : GuildState) : StopResult × GuildState :=
  match s.voice with
  | some _ =>
    (.stopped, { s with musicQueue := none, currentSong := none, voice := none })
  | none => (.notConnected, s)

/-- `leave`: when a voice client exists, disconnect and pop the guild's queue
and now-playing entries; otherwise reply that the bot is not in a channel. -/
def leave (s : GuildState) : StopResult × GuildState :=
  match s.voice with
  | some _ =>
    (.stopped, { s with musicQueue := none, currentSong := none, voice := none })
  | none => (.notConnected, s)

/-- Result of the `volume` command. -/
inductive VolumeResult where
  | notPlaying
  | outOfRange
  | set (pct : Int)
  | setNext (pct : Int)
deriving DecidableEq, Repr

/-- `volume`: refuse unless a client exists and is playing or paused; then
range-check the percent; then store `percent/100` in `guild_volumes` and
retarget the live source gain when a source is attached. -/
def volume (s : GuildState) (new_volume : Int) : VolumeResult × GuildState :=
  match s.voice with
  | none => (.notPlaying, s)
  | some vc =>
    if !(vc.playing || vc.paused) then (.notPlaying, s)
    else if 0 ≤ new_volume ∧ new_volume ≤ 200 then
      let actual : Rat := (new_volume : Rat) / 100
      let s1 : GuildState := { s with guildVolume := some actual }
      match vc.sourceVolume with
      | some _ =>
        (.set new_volume, { s1 with voice := some { vc with sourceVolume := some actual } })
      | none => (.setNext new_volume, s1)
    else (.outOfRange, s)

/-- User-visible reply of the `queue` command. -/
inductive QueueReply where
  | emptyMsg
  | nowOnly (now : Option Song)
  | full (now : Option Song) (upNext : List Song) (remaining : Nat)
deriving DecidableEq, Repr

/-- `queue_cmd`: show a Now Playing field only while the client is active;
with a falsy queue entry, report empty unless a current song record exists;
otherwise list the first ten queued tracks and a count of the rest. -/
def queue_cmd (s : GuildState) : QueueReply :=
  let song_now := s.currentSong
  let showNow : Option Song := if song_now.isSome && voiceActive s then song_now else none
  match s.musicQueue with
  | some (q1 :: qrest) =>
    .full showNow ((q1 :: qrest).take 10) ((q1 :: qrest).length - 10)
  | _ =>
    if song_now.isNone then .emptyMsg else .nowOnly showNow

/-- Whether a resolver outcome takes one of the three failure exits of `play`:
no result or error marker, no playable entry, or no usable stream URL. -/
def resolutionFails (raw : Option RawInfo) : Bool :=
  match raw with
  | none => true
  | some r =>
    r.isErrorType ||
      match selectEntry r with
      | none => true
      | some e => (streamOf e).isNone

/-- A resolver outcome that fully succeeds: not an error, selecting entry `e`
with usable stream URL `u`. -/
def resolvesTo (r : RawInfo) (e : Entry) (u : String) : Prop :=
  r.isErrorType = false ∧ selectEntry r = some e ∧ streamOf e = some u

/-- Observational equivalence of guild states: same logical queue contents,
current song, stored volume and voice client. -/
def obsEq (a b : GuildState) : Prop :=
  logicalQueue a = logicalQueue b ∧ a.currentSong = b.currentSong ∧
    a.guildVolume = b.guildVolume ∧ a.voice = b.voice

/-- A sample resolved track. -/
def songA : Song :=
  { webpage_url := "wA", title := "A", duration := some 100, uploader := "uA",
    thumbnail := none, requester := "r1", source_url := "sA" }

/-- A second sample track. -/
def songB : Song :=
  { songA with title := "B", source_url := "sB" }

/-- A sample track standing for the one currently playing. -/
def songX : Song :=
  { songA with title := "X", source_url := "sX" }

/-- A resolver entry whose fields build `songA`. -/
def entryA : Entry :=
  { webpage_url := some "wA", title := some "A", duration := some 100,
    uploader := some "uA", thumbnail := none, url := some "sA" }

/-- A successful resolver result carrying `entryA`. -/
def rawA : RawInfo :=
  { isErrorType := false, errorMsg := none, entries := none, self := entryA }

/-- A failed resolver result (the `_type == "error"` marker dictionary). -/
def rawErr : RawInfo :=
  { isErrorType := true, errorMsg := some "boom", entries := none, self := entryA }

/-- A connected, idle voice client in channel 5. -/
def vcIdle5 : VoiceClient :=
  { channel := 5, connected := true, playing := false, paused := false, sourceVolume := none }

/-- A connected voice client in channel 5 that is actively playing. -/
def vcPlaying5 : VoiceClient :=
  { vcIdle5 with playing := true, sourceVolume := some (1 / 2) }

/-- A connected voice client in channel 2 that is actively playing. -/
def vcPlaying2 : VoiceClient :=
  { vcPlaying5 with channel := 2 }

/-- A guild connected and idle, with an empty queue entry. -/
def gsIdleEmpty : GuildState :=
  { musicQueue := some [], currentSong := none, guildVolume := none, voice := some vcIdle5 }

/-- A guild connected and idle, with an empty queue entry and a stored volume. -/
def gsIdleVol : GuildState :=
  { musicQueue := some [], currentSong := none, guildVolume := some (7 / 10), voice := some vcIdle5 }

/-- A guild playing `songX` with `[songA, songB]` queued. -/
def gsPlaying : GuildState :=
  { musicQueue := some [songA, songB], currentSong := some songX,
    guildVolume := some (7 / 10), voice := some vcPlaying5 }

/-- A guild holding queue and now-playing entries but no voice client. -/
def gsNoSession : GuildState :=
  { musicQueue := some [songA, songB], currentSong := some songX,
    guildVolume := none, voice := none }

/-- A guild with no dictionary entries at all. -/
def gsAbsent : GuildState :=
  { musicQueue := none, currentSong := none, guildVolume := none, voice := none }

/-- A guild with an empty-default queue entry and nothing else. -/
def gsEmptyEntry : GuildState :=
  { musicQueue := some [], currentSong := none, guildVolume := none, voice := none }

lemma play_audio_source_fields (s : GuildState) :
    (play_audio_source s).musicQueue = s.musicQueue ∧
    (play_audio_source s).currentSong = s.currentSong ∧
    (play_audio_source s).guildVolume = s.guildVolume := by
  rcases hv : s.voice with _ | vc <;> simp [play_audio_source, hv]
  split <;> simp

lemma play_next_in_queue_cons (s : GuildState) (t : Song) (ts : List Song)
    (h : s.musicQueue = some (t :: ts)) :
    (play_next_in_queue s).currentSong = some t ∧
    (play_next_in_queue s).musicQueue = some ts := by
  have hf := play_audio_source_fields { s with musicQueue := some ts, currentSong := some t }
  simp only [play_next_in_queue, h]
  exact ⟨hf.2.1, hf.1⟩

lemma play_after_resolve_state_of_fail (req : String) (raw : Option RawInfo) (s : GuildState)
    (h : resolutionFails raw = true) : (play_after_resolve req raw s).2 = s := by
  rcases raw with _ | r
  · rfl
  · rcases hE : r.isErrorType with _ | _
    · rcases hsel : selectEntry r with _ | e
      · simp [play_after_resolve, hE, hsel]
      · rcases hstr : streamOf e with _ | u
        · simp [play_after_resolve, hE, hsel, hstr]
        · exfalso
          simp [resolutionFails, hE, hsel, hstr] at h
    · simp [play_after_resolve, hE]

lemma play_after_resolve_state_of_noQueue (req : String) (raw : Option RawInfo) (s : GuildState)
    (h : s.musicQueue = none) : (play_after_resolve req raw s).2 = s := by
  rcases raw with _ | r
  · rfl
  · rcases hE : r.isErrorType with _ | _
    · rcases hsel : selectEntry r with _ | e
      · simp [play_after_resolve, hE, hsel]
      · rcases hstr : streamOf e with _ | u <;>
          simp [play_after_resolve, hE, hsel, hstr, h]
    · simp [play_after_resolve, hE]

/-- C1: OnPlaybackEnded clears nowPlaying and then advances: with queue
`t :: ts` before the call, afterwards nowPlaying is `t` and the queue is `ts`,
for every prior nowPlaying value and whether or not an error argument is
present (the error argument is universally quantified and never blocks the
advance). -/
theorem onPlaybackEnded_advances (s : GuildState) (err : Bool) (t : Song) (ts : List Song)
    (h : s.musicQueue = some (t :: ts)) :
    (on_song_end s err).currentSong = some t ∧ (on_song_end s err).musicQueue = some ts := by
  have h2 : ({ s with currentSong := none } : GuildState).musicQueue = some (t :: ts) := h
  have hq : queueTruthy ({ s with currentSong := none } : GuildState) = true := by
    simp [queueTruthy, h]
  simp only [on_song_end, hq, if_true]
  exact play_next_in_queue_cons _ t ts h2

/-- Witness for C1: with queue `[songA, songB]`, nowPlaying `songX` and an
error present, OnPlaybackEnded makes `songA` the current song and leaves
`[songB]` queued. -/
theorem onPlaybackEnded_advances_witness :
    (on_song_end gsPlaying true).currentSong = some songA ∧
    (on_song_end gsPlaying true).musicQueue = some [songB] :=
  onPlaybackEnded_advances gsPlaying true songA [songB] rfl

/-- C3: when a session exists in a different channel and is actively playing
or paused, ensureConnected fails with SessionBusy and returns the voice client
slot unchanged: same channel, same playback flags, nothing interrupted. -/
theorem ensureConnected_busy (uc : Nat) (vc : VoiceClient)
    (hne : vc.channel ≠ uc) (hb : vc.playing = true ∨ vc.paused = true) :
    ensure_voice (some uc) (some vc) = (VoiceResult.busy, some vc) := by
  rcases hb with hb | hb <;> simp [ensure_voice, hne, hb]

/-- Witness for C3: a client playing in channel 2, requested from channel 1,
yields SessionBusy with the client untouched. -/
theorem ensureConnected_busy_witness :
    ensure_voice (some 1) (some vcPlaying2) = (VoiceResult.busy, some vcPlaying2) :=
  ensureConnected_busy 1 vcPlaying2 (by decide) (Or.inl rfl)

/-- C4 (amended): when a voice session is present, Stop and Leave clear the
guild's queue and nowPlaying regardless of their prior contents and disconnect,
and a subsequent queue query reports empty; when no session is present, both
commands reply not-connected and change nothing. -/
theorem stop_teardown_behavior (s : GuildState) :
    (s.voice.isSome = true →
      (stop s).1 = StopResult.stopped ∧
      (stop s).2.musicQueue = none ∧ (stop s).2.currentSong = none ∧
      (stop s).2.voice = none ∧ queue_cmd (stop s).2 = QueueReply.emptyMsg ∧
      (leave s).2.musicQueue = none ∧ (leave s).2.currentSong = none ∧
      (leave s).2.voice = none)
  ∧ (s.voice = none →
      stop s = (StopResult.notConnected, s) ∧ leave s = (StopResult.notConnected, s)) := by
  rcases hv : s.voice with _ | vc
  · simp [stop, leave, hv]
  · refine ⟨fun _ => ?_, fun h => by simp [hv] at h⟩
    simp [stop, leave, queue_cmd, hv]

/-- Witness for C4 (amended): Stop and Leave on a guild playing `songX` with
queue `[songA, songB]` clear everything and the queue query reports empty. -/
theorem stop_teardown_behavior_witness :
    (stop gsPlaying).1 = StopResult.stopped ∧
    (stop gsPlaying).2.musicQueue = none ∧ (stop gsPlaying).2.currentSong = none ∧
    (stop gsPlaying).2.voice = none ∧ queue_cmd (stop gsPlaying).2 = QueueReply.emptyMsg ∧
    (leave gsPlaying).2.musicQueue = none ∧ (leave gsPlaying).2.currentSong = none ∧
    (leave gsPlaying).2.voice = none :=
  (stop_teardown_behavior gsPlaying).1 rfl

/-- Counterexample to C4 as stated: on a guild with queue `[songA, songB]` and
nowPlaying `songX` but no voice session, Stop (and Leave) clear nothing — the
queue and nowPlaying survive, refuting the unconditional clear. -/
theorem stop_unconditional_clear_cex :
    (stop gsNoSession).2.musicQueue = some [songA, songB] ∧
    (stop gsNoSession).2.currentSong = some songX ∧
    (stop gsNoSession).1 = StopResult.notConnected ∧
    (leave gsNoSession).2.musicQueue = some [songA, songB] :=
  ⟨rfl, rfl, rfl, rfl⟩

/-- C5 (amended): while the guild's session is playing or paused, SetVolume
with percent in [0, 200] stores percent/100 as the guild's volume, and
SetVolume outside [0, 200] fails with OutOfRange leaving all state unchanged;
an idle or disconnected guild is instead refused before the range check
without storing anything. -/
theorem setVolume_active_behavior (s : GuildState) (vc : VoiceClient) (p : Int)
    (hv : s.voice = some vc) (hact : vc.playing = true ∨ vc.paused = true) :
    ((0 ≤ p ∧ p ≤ 200) →
      (volume s p).2.guildVolume = some ((p : Rat) / 100) ∧
      ((volume s p).1 = VolumeResult.set p ∨ (volume s p).1 = VolumeResult.setNext p))
  ∧ (¬(0 ≤ p ∧ p ≤ 200) →
      (volume s p).1 = VolumeResult.outOfRange ∧ (volume s p).2 = s) := by
  have hb : (vc.playing || vc.paused) = true := by
    rcases hact with h | h <;> simp [h]
  constructor
  · intro hr
    rcases hsv : vc.sourceVolume with _ | q <;> simp [volume, hv, hb, hr, hsv]
  · intro hr
    simp [volume, hv, hb, hr]

/-- Witness for C5 (amended): SetVolume(250) on a playing guild fails with
OutOfRange and leaves the state unchanged. -/
theorem setVolume_active_witness :
    (volume gsPlaying 250).1 = VolumeResult.outOfRange ∧ (volume gsPlaying 250).2 = gsPlaying :=
  (setVolume_active_behavior gsPlaying vcPlaying5 250 rfl (Or.inl rfl)).2 (by decide)

/-- Counterexample to C5 as stated: on a connected but idle guild with stored
volume 7/10, SetVolume(150) — an in-range percent — does not store 150/100; the
command is refused with the not-playing reply and the volume stays 7/10. -/
theorem setVolume_inRange_idle_cex :
    ((0 : Int) ≤ 150 ∧ (150 : Int) ≤ 200) ∧
    (volume gsIdleVol 150).1 = VolumeResult.notPlaying ∧
    (volume gsIdleVol 150).2.guildVolume = some ((7 : Rat) / 10) ∧
    ((7 : Rat) / 10) ≠ ((150 : Rat) / 100) := by
  refine ⟨by norm_num, rfl, rfl, by norm_num⟩

/-- C8: Skip on a guild whose session is idle (or absent) fails with the
nothing-playing reply and returns the entire guild state unchanged: queue,
nowPlaying, volume and voice session. -/
theorem skip_idle_rejected (s : GuildState) (h : voiceActive s = false) :
    skip s = (SkipResult.nothingToSkip, s) := by
  rcases hv : s.voice with _ | vc
  · simp [skip, hv]
  · have h2 : (vc.playing || vc.paused) = false := by
      simpa [voiceActive, hv] using h
    simp [skip, hv, h2]

/-- Witness for C8: Skip on a connected idle guild is rejected with no state
change. -/
theorem skip_idle_rejected_witness :
    skip gsIdleEmpty = (SkipResult.nothingToSkip, gsIdleEmpty) :=
  skip_idle_rejected gsIdleEmpty rfl

/-- C10: with no voice session, or a session neither playing nor paused, the
volume command replies not-playing for every argument — including in-range
ones — and leaves the guild state, in particular the stored volume,
unchanged. -/
theorem volume_requires_active_playback (s : GuildState) (p : Int)
    (h : voiceActive s = false) :
    volume s p = (VolumeResult.notPlaying, s) := by
  rcases hv : s.voice with _ | vc
  · simp [volume, hv]
  · have h2 : (vc.playing || vc.paused) = false := by
      simpa [voiceActive, hv] using h
    simp [volume, hv, h2]

/-- Witness for C10: volume 50 on a guild with no session is refused with no
state change. -/
theorem volume_requires_active_playback_witness :
    volume gsNoSession 50 = (VolumeResult.notPlaying, gsNoSession) :=
  volume_requires_active_playback gsNoSession 50 rfl

/-- C2: with the requesting user in the session's channel and a fully
successful resolution, an enqueue on a connected idle session with an empty
logical queue immediately starts playback — nowPlaying becomes the resolved
track, the queue is empty and the session reports active — while an enqueue
issued when the session is playing or paused only appends the track at the
queue tail, preserving insertion order and leaving nowPlaying unchanged. -/
theorem enqueue_idle_starts_else_appends (s : GuildState) (vc : VoiceClient)
    (r : RawInfo) (e : Entry) (u : String) (req : String)
    (hv : s.voice = some vc) (hres : resolvesTo r e u) :
    ((vc.connected = true ∧ vc.playing = false ∧ vc.paused = false ∧ logicalQueue s = []) →
      (play (some vc.channel) req (some r) s).2.currentSong = some (mkSong e req u) ∧
      (play (some vc.channel) req (some r) s).2.musicQueue = some [] ∧
      voiceActive (play (some vc.channel) req (some r) s).2 = true)
  ∧ ((vc.playing = true ∨ vc.paused = true) →
      (play (some vc.channel) req (some r) s).2.currentSong = s.currentSong ∧
      logicalQueue (play (some vc.channel) req (some r) s).2 =
        logicalQueue s ++ [mkSong e req u]) := by
  obtain ⟨hE, hsel, hstr⟩ := hres
  obtain ⟨q, cs, gv, v⟩ := s
  change v = some vc at hv
  subst hv
  have hev : ensure_voice (some vc.channel) (some vc) = (VoiceResult.ok vc, some vc) := by
    simp [ensure_voice]
  constructor
  · rintro ⟨hc, hp, hpa, hq⟩
    have hq2 : q = none ∨ q = some [] := by
      rcases q with _ | l
      · exact Or.inl rfl
      · simp [logicalQueue] at hq
        exact Or.inr (by rw [hq])
    rcases hq2 with hq2 | hq2 <;>
      subst hq2 <;>
      simp [play, hev, play_after_resolve, hE, hsel, hstr, voiceActive, hp, hpa,
        play_next_in_queue, play_audio_source, hc]
  · intro hb
    have hba : (vc.playing || vc.paused) = true := by
      rcases hb with hb | hb <;> simp [hb]
    rcases q with _ | l <;>
      simp [play, hev, play_after_resolve, hE, hsel, hstr, voiceActive, hba, logicalQueue]

/-- Witness for C2: enqueueing on a connected idle guild with an empty queue
entry starts `songA` immediately. -/
theorem enqueue_idle_starts_witness :
    (play (some 5) "r1" (some rawA) gsIdleEmpty).2.currentSong = some songA ∧
    (play (some 5) "r1" (some rawA) gsIdleEmpty).2.musicQueue = some [] ∧
    voiceActive (play (some 5) "r1" (some rawA) gsIdleEmpty).2 = true :=
  (enqueue_idle_starts_else_appends gsIdleEmpty vcIdle5 rawA entryA "sA" "r1" rfl
    ⟨rfl, rfl, by decide⟩).1 ⟨rfl, rfl, rfl, rfl⟩

/-- C6: a resolution that completes after Stop (or Leave) was issued for the
guild is discarded by the deferred enqueue continuation: it leaves the cleared
state exactly as Stop left it — queue entry and nowPlaying gone, session
inactive — and a subsequent queue query still reports empty. -/
theorem stale_resolution_after_stop_discarded (s : GuildState) (vc : VoiceClient)
    (hv : s.voice = some vc) (raw : Option RawInfo) (req : String) :
    (play_after_resolve req raw (stop s).2).2 = (stop s).2 ∧
    (play_after_resolve req raw (stop s).2).2.musicQueue = none ∧
    (play_after_resolve req raw (stop s).2).2.currentSong = none ∧
    voiceActive (play_after_resolve req raw (stop s).2).2 = false ∧
    queue_cmd (play_after_resolve req raw (stop s).2).2 = QueueReply.emptyMsg ∧
    (play_after_resolve req raw (leave s).2).2 = (leave s).2 := by
  have hst : (stop s).2 =
      { s with musicQueue := none, currentSong := none, voice := none } := by
    simp [stop, hv]
  have hlv : (leave s).2 =
      { s with musicQueue := none, currentSong := none, voice := none } := by
    simp [leave, hv]
  have h1 : (play_after_resolve req raw (stop s).2).2 = (stop s).2 :=
    play_after_resolve_state_of_noQueue req raw _ (by rw [hst])
  have h2 : (play_after_resolve req raw (leave s).2).2 = (leave s).2 :=
    play_after_resolve_state_of_noQueue req raw _ (by rw [hlv])
  refine ⟨h1, ?_, ?_, ?_, ?_, h2⟩ <;> rw [h1, hst] <;> rfl

/-- Witness for C6: after Stop on a playing guild, a late successful
resolution of `rawA` changes nothing and the queue query reports empty. -/
theorem stale_resolution_after_stop_witness :
    (play_after_resolve "r1" (some rawA) (stop gsPlaying).2).2 = (stop gsPlaying).2 ∧
    (play_after_resolve "r1" (some rawA) (stop gsPlaying).2).2.musicQueue = none ∧
    (play_after_resolve "r1" (some rawA) (stop gsPlaying).2).2.currentSong = none ∧
    voiceActive (play_after_resolve "r1" (some rawA) (stop gsPlaying).2).2 = false ∧
    queue_cmd (play_after_resolve "r1" (some rawA) (stop gsPlaying).2).2 = QueueReply.emptyMsg ∧
    (play_after_resolve "r1" (some rawA) (leave gsPlaying).2).2 = (leave gsPlaying).2 :=
  stale_resolution_after_stop_discarded gsPlaying vcPlaying5 rfl (some rawA) "r1"

/-- C7: when resolution fails (no result, resolver error marker, no playable
entry or no usable stream URL), the play command leaves the guild's logical
queue contents, nowPlaying and stored volume exactly as they were. -/
theorem resolver_failure_preserves_state (s : GuildState) (uc : Option Nat) (req : String)
    (raw : Option RawInfo) (h : resolutionFails raw = true) :
    logicalQueue (play uc req raw s).2 = logicalQueue s ∧
    (play uc req raw s).2.currentSong = s.currentSong ∧
    (play uc req raw s).2.guildVolume = s.guildVolume := by
  obtain ⟨q, cs, gv, v⟩ := s
  rcases hev : ensure_voice uc v with ⟨res, v2⟩
  cases res with
  | noUser => simp [play, hev, logicalQueue]
  | busy => simp [play, hev, logicalQueue]
  | ok vc =>
    rcases q with _ | l
    · have hp := play_after_resolve_state_of_fail req raw
        ({ musicQueue := some [], currentSong := cs, guildVolume := gv, voice := v2 } :
          GuildState) h
      simp [play, hev, hp, logicalQueue]
    · have hp := play_after_resolve_state_of_fail req raw
        ({ musicQueue := some l, currentSong := cs, guildVolume := gv, voice := v2 } :
          GuildState) h
      simp [play, hev, hp, logicalQueue]

/-- Witness for C7: a resolver error on a playing guild with queued tracks
leaves queue, nowPlaying and volume untouched. -/
theorem resolver_failure_preserves_state_witness :
    logicalQueue (play (some 5) "r1" (some rawErr) gsPlaying).2 = logicalQueue gsPlaying ∧
    (play (some 5) "r1" (some rawErr) gsPlaying).2.currentSong = gsPlaying.currentSong ∧
    (play (some 5) "r1" (some rawErr) gsPlaying).2.guildVolume = gsPlaying.guildVolume :=
  resolver_failure_preserves_state gsPlaying (some 5) "r1" (some rawErr) rfl

/-- C9: a guild with no queue entry and a guild whose entry is an empty queue
(with no nowPlaying change) are observationally equivalent: enqueue, advance,
playback-ended, the queue query and the volume lookup produce the same
user-visible result and observationally equal states from either
representation. -/
theorem absent_empty_equivalent (s s2 : GuildState) (h : s.musicQueue = none)
    (h2 : s2 = { s with musicQueue := some [] }) :
    (∀ (uc : Option Nat) (req : String) (raw : Option RawInfo),
      (play uc req raw s).1 = (play uc req raw s2).1 ∧
      obsEq (play uc req raw s).2 (play uc req raw s2).2)
  ∧ obsEq (play_next_in_queue s) (play_next_in_queue s2)
  ∧ (∀ err : Bool, obsEq (on_song_end s err) (on_song_end s2 err))
  ∧ queue_cmd s = queue_cmd s2
  ∧ volumeLookup s = volumeLookup s2 := by
  obtain ⟨q, cs, gv, v⟩ := s
  change q = none at h
  subst h
  subst h2
  refine ⟨?_, ?_, ?_, ?_, ?_⟩
  · intro uc req raw
    rcases hev : ensure_voice uc v with ⟨res, v2⟩
    cases res with
    | noUser => simp [play, hev, obsEq, logicalQueue]
    | busy => simp [play, hev, obsEq, logicalQueue]
    | ok vc =>
      simp [play, hev, obsEq, logicalQueue]
  · simp [play_next_in_queue, obsEq, logicalQueue]
  · intro err
    simp [on_song_end, queueTruthy, obsEq, logicalQueue]
  · simp [queue_cmd, voiceActive]
  · rfl

/-- Witness for C9: absent-entry and empty-entry guilds give the same queue
query reply, the same playback-ended result and the same play outcome on a
failing resolution. -/
theorem absent_empty_equivalent_witness :
    queue_cmd gsAbsent = queue_cmd gsEmptyEntry ∧
    obsEq (on_song_end gsAbsent true) (on_song_end gsEmptyEntry true) ∧
    (play (some 1) "r1" (some rawErr) gsAbsent).1 =
      (play (some 1) "r1" (some rawErr) gsEmptyEntry).1 := by
  have h := absent_empty_equivalent gsAbsent gsEmptyEntry rfl rfl
  exact ⟨h.2.2.2.1, h.2.2.1 true, (h.1 (some 1) "r1" (some rawErr)).1⟩

end MusicBot
